import Mathlib

/-!
Shallow embedding of the elastic-recheck matching core
(`elastic_recheck/elasticRecheck.py` and `elastic_recheck/query_builder.py`)
together with proofs of the specified properties.

External collaborators (the search engine, the gerrit feed, the subunit2sql
store) are modelled as injected functions; pure code is translated directly.
Wall-clock time is modelled as natural-number seconds.
-/

namespace ER

/-! ## query_builder.py -/

/-- A facet request: `generic` accepts either a single field name or a list of
field names (`field=facet` versus `fields=facet` in the source). -/
inductive FacetSpec
  | single (field : String)
  | multi (fields : List String)
deriving DecidableEq

/-- The structured pyelasticsearch request built by `generic`: a sort clause,
a `query_string` query, and an optional terms facet with its size. -/
structure ESQuery where
  sortField : String
  sortOrder : String
  queryString : String
  facet : Option (FacetSpec × Nat)
deriving DecidableEq

/-- `query_builder.generic(raw_query, facet=None)`: sort by `@timestamp`
descending, full-text `raw_query`, and a size-200 terms facet when a facet is
requested. -/
def generic (raw_query : String) (facet : Option FacetSpec := none) : ESQuery :=
  { sortField := "@timestamp"
    sortOrder := "desc"
    queryString := raw_query
    facet := facet.map (fun f => (f, 200)) }

/-- Branch (a) of `result_ready`: the structured `job-output.txt` end-of-job
marker. -/
def jobOutputMarker : String :=
  "(filename:\"job-output.txt\" AND message:\"POST-RUN END\" AND message:\"project-config/playbooks/base/post-ssh.yaml\")"

/-- Branch (b) of `result_ready`: the legacy `console.html` completion
markers. -/
def consoleMarkers : String :=
  "(filename:\"console.html\" AND (message:\"[Zuul] Job complete\" OR message:\"[SCP] Copying console log\" OR message:\"Grabbing consoleLog\"))"

/-- `query_builder.result_ready(change, patchset, name, short_uuid)`.  The
Python source formats the four values (stringified) into one query literal;
the two marker branches are named above so the theorems can refer to them. -/
def result_ready (change patchset name short_uuid : String) : ESQuery :=
  generic ("(" ++ jobOutputMarker ++ " OR " ++ consoleMarkers ++ ")"
    ++ " AND build_status:\"FAILURE\""
    ++ " AND build_change:\"" ++ change ++ "\""
    ++ " AND build_patchset:\"" ++ patchset ++ "\""
    ++ " AND build_name:\"" ++ name ++ "\""
    ++ " AND build_short_uuid:\"" ++ short_uuid ++ "\"")

/-- `query_builder.files_ready(review, patch, name, build_short_uuid)`:
FAILURE-status query scoped to one build, faceted on `filename`. -/
def files_ready (review patch name build_short_uuid : String) : ESQuery :=
  generic ("build_status:\"FAILURE\" AND build_change:\"" ++ review
      ++ "\" AND build_patchset:\"" ++ patch
      ++ "\" AND build_name:\"" ++ name
      ++ "\" AND build_short_uuid:" ++ build_short_uuid)
    (some (FacetSpec.single ("filename")))

/-- `query_builder.single_patch(query, review, patch, build_short_uuid)`. -/
def single_patch (query review patch build_short_uuid : String) : ESQuery :=
  generic (query ++ " AND build_change:\"" ++ review
      ++ "\" AND build_patchset:\"" ++ patch
      ++ "\" AND build_short_uuid:" ++ build_short_uuid)

/-! ## required_files (`elasticRecheck.py`)

Python `re.match(pat, s)` anchors the pattern at the start of `s`.  The three
patterns used by `required_files` are the alternation `(tempest|grenade)-dsvm`
and the literals `neutron` and `grenade`, so each test reduces to a
starts-with check. -/

/-- Python `re.match` of a literal pattern: an anchored starts-with test,
computed on the character list. -/
def startsWithLit (pat s : String) : Bool :=
  pat.toList.isPrefixOf s.toList

/-- Models `re.match("(tempest|grenade)-dsvm", job)`: anchored at the start,
so the job name must begin with `tempest-dsvm` or `grenade-dsvm`. -/
def matchesDsvm (job : String) : Bool :=
  startsWithLit ("tempest-dsvm") job || startsWithLit ("grenade-dsvm") job

/-- `elasticRecheck.required_files(job)`. -/
def required_files (job : String) : List String :=
  (if matchesDsvm job then
    ["logs/screen-n-api.txt",
     "logs/screen-n-cpu.txt",
     "logs/screen-n-sch.txt",
     "logs/screen-g-api.txt",
     "logs/screen-c-api.txt",
     "logs/screen-c-vol.txt",
     "logs/syslog.txt"] ++
    (if startsWithLit ("neutron") job then
      ["logs/screen-q-svc.txt"]
    else
      ["logs/screen-n-net.txt"])
  else []) ++
  (if startsWithLit ("grenade") job then ["logs/grenade.sh.txt"] else [])

/-- The tail of `Stream._has_required_files` once the faceted search has
returned the filename terms `files`: true iff the check raises
`FilesNotReady`.  The source raises when `missing_files` is non-empty OR
neither `console.html` nor `job-output.txt` is among the terms. -/
def filesNotReadyRaised (files : List String) (name : String) : Bool :=
  let required := required_files name
  let missing_files := required.filter (fun x => !files.contains x)
  missing_files.length != 0 ||
    (!files.contains ("console.html") && !files.contains ("job-output.txt"))

/-- The claim's conjunctive failure condition, written from the spec's words:
fail only when some required file is missing AND no finish marker is
present. -/
def specConjunctiveFailure (files : List String) (name : String) : Bool :=
  (required_files name).any (fun x => !files.contains x) &&
    (!files.contains ("console.html") && !files.contains ("job-output.txt"))

/-! ## FailJob and FailEvent (`elasticRecheck.py`)

`FailJob.bugs` is a class-level attribute in the source: one shared mutable
list for all instances, since `__init__` never assigns `self.bugs`.  The
class attribute is modelled by `FailJobClassState`; an instance attribute
created by a later assignment `job.bugs = ...` is modelled by `ownBugs`
(`none` = no instance attribute, attribute lookup falls through to the
class). -/

structure FailJob where
  name : String
  url : String
  build_short_uuid : String
  ownBugs : Option (List String)
deriving DecidableEq

/-- The one `FailJob.bugs` class-level list (`bugs = []` in the class body). -/
structure FailJobClassState where
  bugs : List String
deriving DecidableEq

/-- Python `s.split(sep)` for a one-character separator. -/
def splitOnChar (sep : Char) : List Char → List (List Char)
  | [] => [[]]
  | c :: cs =>
    let r := splitOnChar sep cs
    if c = sep then [] :: r
    else
      match r with
      | [] => [[c]]
      | h :: t => (c :: h) :: t

/-- `list(filter(None, url.split('/')))[-1]`: the last non-empty
slash-separated segment of the URL.  (Python raises IndexError when no
segment is non-empty; that case is unreachable for the `http://...` URLs the
failure regex produces, and is mapped to `""` here.) -/
def buildShortUuidOfUrl (url : String) : String :=
  ((((splitOnChar '/' url.toList).map String.mk).filter
      (fun s => s != "")).getLast?).getD ""

/-- `FailJob.__init__(name, url)`: stores name and url and derives
`build_short_uuid`; does NOT create an instance `bugs` attribute. -/
def FailJob.init (name url : String) : FailJob :=
  { name := name
    url := url
    build_short_uuid := buildShortUuidOfUrl url
    ownBugs := none }

/-- Attribute lookup `job.bugs`: the instance attribute if one was ever
assigned, otherwise the shared class attribute. -/
def FailJob.getBugs (st : FailJobClassState) (j : FailJob) : List String :=
  j.ownBugs.getD st.bugs

/-- `job.bugs.append(b)`: mutates whichever list object `job.bugs` resolves
to — the shared class-level list when the instance has no own attribute. -/
def FailJob.appendBug (st : FailJobClassState) (j : FailJob) (b : String) :
    FailJobClassState × FailJob :=
  match j.ownBugs with
  | none => ({ bugs := st.bugs ++ [b] }, j)
  | some l => (st, { j with ownBugs := some (l ++ [b]) })

structure FailEvent where
  change : Int
  rev : Int
  project : String
  url : String
  comment : String
  created_on : Nat
  failed_jobs : List FailJob
deriving DecidableEq

/-- `FailEvent.get_all_bugs`: the set-union of every failed job's bug list;
`None` when the union is empty, otherwise `list(...)` of the set.  (CPython's
`len(bugs) is 0` compares equal small ints, i.e. it is `== 0`; the iteration
order of `list(set(...))` is unspecified, so the set is modelled as the
duplicate-free `dedup` of the accumulated union.) -/
def FailEvent.get_all_bugs (st : FailJobClassState) (e : FailEvent) :
    Option (List String) :=
  let bugs : List String :=
    (e.failed_jobs.foldl (fun acc j => acc ++ FailJob.getBugs st j) []).dedup
  if bugs.length = 0 then none else some bugs

/-- `FailEvent.bug_urls(bugs=None)`: defaults to `get_all_bugs()`; `None`
when the resulting collection is falsy, else the launchpad URL list. -/
def FailEvent.bug_urls (st : FailJobClassState) (e : FailEvent)
    (bugsArg : Option (List String)) : Option (List String) :=
  let bugs :=
    match bugsArg with
    | none => FailEvent.get_all_bugs st e
    | some bs => some bs
  match bugs with
  | none => none
  | some bs =>
    if bs.isEmpty then none
    else some (bs.map (fun x => "https://bugs.launchpad.net/bugs/" ++ x))

/-! ## Readiness probe (`Stream._does_es_have_data`)

The search engine is injected as two time-indexed oracles: `search` giving
the hit count of a query (`len(self.es.search(...))`) and `searchFacets`
giving the filename facet terms.  `time.sleep(40)` advances the clock by 40;
queries take no model time.  The `while True` loop is run on a `gas`
parameter large enough that the sentinel `outOfGas` is never reached (proved
below), which makes the recursion structural. -/

/-- `timeout = 1200` seconds from `elasticRecheck.py`. -/
def probeTimeout : Nat := 1200

/-- `sleep_time = 40` seconds from `elasticRecheck.py`. -/
def probeSleep : Nat := 40

inductive ProbeResult
  | success
  | timedOut (now : Nat)
  | outOfGas
deriving DecidableEq

/-- One pass of the loop body: `_job_console_uploaded` then
`_has_required_files` for every failed job, in order; the pass succeeds iff
no check raises. -/
def probePass (search : ESQuery → Nat → Nat) (searchFacets : ESQuery → Nat → List String)
    (e : FailEvent) (now : Nat) : Bool :=
  e.failed_jobs.all (fun job =>
    search (result_ready (toString e.change) (toString e.rev)
        job.name job.build_short_uuid) now != 0 &&
    !(filesNotReadyRaised
        (searchFacets (files_ready (toString e.change) (toString e.rev)
          job.name job.build_short_uuid) now) job.name))

/-- The retry loop of `_does_es_have_data`: a successful pass breaks with
success; a failed pass times out with `ResultTimedOut` when the wall clock
exceeds `created_on + timeout`, otherwise sleeps 40 seconds and retries. -/
def probeLoop (search : ESQuery → Nat → Nat) (searchFacets : ESQuery → Nat → List String)
    (e : FailEvent) : Nat → Nat → ProbeResult
  | gas, now =>
    if probePass search searchFacets e now then ProbeResult.success
    else if e.created_on + probeTimeout < now then ProbeResult.timedOut now
    else
      match gas with
      | 0 => ProbeResult.outOfGas
      | g + 1 => probeLoop search searchFacets e g (now + probeSleep)

/-- `Stream._does_es_have_data(event)` entered at wall-clock time `now`. -/
def does_es_have_data (search : ESQuery → Nat → Nat)
    (searchFacets : ESQuery → Nat → List String) (e : FailEvent) (now : Nat) :
    ProbeResult :=
  probeLoop search searchFacets e (e.created_on + probeTimeout + 1 - now) now

/-! ## Classifier (`Classifier.classify` and `check_failed_test_ids_for_job`)

The query catalog is the injected list of records (`loader.load`); the search
engine is `es` giving the hit count of a query
(`len(self.es.search(query, size='10', recent=recent))`); the subunit2sql
store is `db`, mapping a `build_short_uuid` to its failing test ids. -/

/-- One record of the query catalog.  `test_ids = []` models an absent or
empty `test_ids` key (both are falsy for `x.get('test_ids', None)`);
`suppress_notification` is the `suppress-notification` key. -/
structure QueryRecord where
  bug : String
  query : String
  test_ids : List String
  suppress_notification : Bool
deriving DecidableEq

/-- `check_failed_test_ids_for_job(build_uuid, test_ids, session)`: true iff
some declared test id is among the failing test ids the store records for
this build.  (The `for`/`else` in the source is plain any-semantics: the
`else` branch runs exactly when no test id matched.) -/
def check_failed_test_ids_for_job (db : String → List String) (build_uuid : String)
    (test_ids : List String) : Bool :=
  let failing_test_ids := db build_uuid
  test_ids.any (fun t => failing_test_ids.contains t)

/-- `Classifier.classify(change_number, patch_number, build_short_uuid)`:
walks the catalog in order; skips suppressed records; runs each remaining
record's single-patch-scoped query; on a non-zero hit count the record
matches directly when it declares no test ids, and matches through the
subunit2sql cross-check otherwise.  Matched bug ids accumulate in catalog
order. -/
def classify (es : ESQuery → Nat) (db : String → List String)
    (change_number patch_number build_short_uuid : String) :
    List QueryRecord → List String
  | [] => []
  | x :: rest =>
    if x.suppress_notification then
      classify es db change_number patch_number build_short_uuid rest
    else if 0 < es (single_patch x.query change_number patch_number build_short_uuid) then
      if x.test_ids ≠ [] then
        if check_failed_test_ids_for_job db build_short_uuid x.test_ids then
          x.bug :: classify es db change_number patch_number build_short_uuid rest
        else classify es db change_number patch_number build_short_uuid rest
      else x.bug :: classify es db change_number patch_number build_short_uuid rest
    else classify es db change_number patch_number build_short_uuid rest

/-! ## `Stream.parse_jenkins_failure`

The failure-line pattern `- ([\w-]+)\s*(http://\S+)\s*:\s*FAILURE` is matched
with Python `re.search` semantics: the leftmost starting position wins, and
within one position the greedy quantifiers backtrack longest-first
(depth-first).  The matcher below implements exactly this pattern:
`tryDown` realises longest-first backtracking for a quantifier, and
`reSearchFailure` scans start positions left to right. -/

/-- Python `\w` on the ASCII comments at hand: letters, digits, underscore. -/
def isWordChar (c : Char) : Bool :=
  c.isAlphanum || c = '_'

/-- Python `\s`: ASCII whitespace (space, tab, newline, carriage return,
vertical tab, form feed). -/
def isSpaceChar (c : Char) : Bool :=
  c = ' ' || c = '\t' || c = '\n' || c = '\r' || c = '\x0b' || c = '\x0c'

/-- The class `[\w-]` of the job-name capture group. -/
def isG1Char (c : Char) : Bool :=
  isWordChar c || c = '-'

/-- The class `\S` of the URL capture group. -/
def isNonSpace (c : Char) : Bool :=
  !isSpaceChar c

/-- Length of the maximal prefix run satisfying `p` (the most a greedy
quantifier over `p` can consume). -/
def runLength (p : Char → Bool) : List Char → Nat
  | [] => 0
  | c :: cs => if p c then runLength p cs + 1 else 0

/-- Longest-first backtracking: try `f n`, then `f (n-1)`, ..., down to
`f 0`, returning the first success. -/
def tryDown (f : Nat → Option α) : Nat → Option α
  | 0 => f 0
  | n + 1 => ((f (n + 1)).orElse (fun _ => tryDown f n))

/-- Match a literal character sequence, returning the rest of the input. -/
def dropLit : List Char → List Char → Option (List Char)
  | [], s => some s
  | _ :: _, [] => none
  | l :: ls, c :: cs => if c = l then dropLit ls cs else none

/-- Greedy `p+`: consume between 1 and the maximal run of `p`-characters,
longest first, passing the consumed prefix and the rest to `k`. -/
def matchPlus (p : Char → Bool) (s : List Char)
    (k : List Char → List Char → Option α) : Option α :=
  tryDown (fun j => if j = 0 then none else k (s.take j) (s.drop j))
    (runLength p s)

/-- Greedy `\s*`: consume between the maximal space run and 0 spaces,
longest first. -/
def matchSpaces (s : List Char) (k : List Char → Option α) : Option α :=
  tryDown (fun j => k (s.drop j)) (runLength isSpaceChar s)

/-- Try the full pattern anchored at the current position; on success
returns (group 1, group 2) = (job name, url). -/
def matchFailureAt (s : List Char) : Option (String × String) :=
  match dropLit [ '-', ' ' ] s with
  | none => none
  | some s1 =>
    matchPlus isG1Char s1 (fun g1 s2 =>
      matchSpaces s2 (fun s3 =>
        match dropLit ("http://").toList s3 with
        | none => none
        | some s4 =>
          matchPlus isNonSpace s4 (fun g2tail s5 =>
            matchSpaces s5 (fun s6 =>
              match s6 with
              | ':' :: s7 =>
                matchSpaces s7 (fun s8 =>
                  match dropLit ("FAILURE").toList s8 with
                  | none => none
                  | some _ => some (String.mk g1, "http://" ++ String.mk g2tail))
              | _ => none))))

/-- `re.search` for the failure pattern: leftmost start position wins. -/
def reSearchFailure (s : List Char) : Option (String × String) :=
  match matchFailureAt s with
  | some r => some r
  | none =>
    match s with
    | [] => none
    | _ :: cs => reSearchFailure cs

/-- Python `needle in hay` for lists of characters. -/
def listContainsSeq (needle : List Char) : List Char → Bool
  | [] => needle.isEmpty
  | c :: cs => needle.isPrefixOf (c :: cs) || listContainsSeq needle cs

/-- Python `needle in hay` on strings. -/
def strContainsB (hay needle : String) : Bool :=
  listContainsSeq needle.toList hay.toList

/-- The per-line body of the loop in `parse_jenkins_failure`: skip lines
annotated `" (non-voting)"`, otherwise run the failure regex and build a
FailJob from the two capture groups. -/
def parseFailureLine (line : String) : Option FailJob :=
  if strContainsB line (" (non-voting)") then none
  else
    match reSearchFailure line.toList with
    | some (name, url) => some (FailJob.init name url)
    | none => none

/-- The fields of a gerrit stream event that `parse_jenkins_failure` reads.
`type` models `event.get('type', '')` and `author_username` models
`event['author'].get('username', '')` (an absent key becomes `""`). -/
structure GerritEvent where
  type : String
  author_username : String
  comment : String
deriving DecidableEq

/-- `Stream.parse_jenkins_failure(event, ci_username)`: `none` models the
`return False` branches (not a comment-added event, untrusted author, no
failure banner); otherwise the failed jobs parsed from the comment lines.
Python returns the possibly-empty list in that case. -/
def parse_jenkins_failure (event : GerritEvent) (ci_username : String) :
    Option (List FailJob) :=
  if event.type ≠ "comment-added" then none
  else if ¬(event.author_username = ci_username ∨ event.author_username = "zuul") then
    none
  else if ¬(strContainsB event.comment ("Build failed") = true) then none
  else some (((splitOnChar '\n' event.comment.toList).map String.mk).filterMap
    parseFailureLine)

/-! ## `query_builder.encode_logstash_query`

The source runs `json.dumps(query)[1:-1]`, percent-encodes the result with
`urllib.parse.quote` (default `safe='/'`), and appends `&from=<timeframe>s`.
JSON values, `json.dumps` (default separators and `ensure_ascii`), `quote`,
percent-decoding and `json.loads` are modelled below; JSON numbers are
modelled as integers only (no fractional or exponent forms appear in this
system's queries), and strings are treated as sequences of unicode scalars
(the claims' inputs are ASCII). -/

inductive Json
  | str (s : String)
  | num (n : Int)
  | jbool (b : Bool)
  | null
  | arr (elems : List Json)
  | obj (fields : List (String × Json))

/-- Lowercase hex digit, as `json.dumps` emits in `\uXXXX` escapes. -/
def hexDigitLower (n : Nat) : Char :=
  Char.ofNat (if n < 10 then 48 + n else 87 + n)

/-- A `\uXXXX` escape for one UTF-16 code unit. -/
def uescape (n : Nat) : List Char :=
  '\\' :: 'u' :: ([12, 8, 4, 0].map (fun k => hexDigitLower (n / 2 ^ k % 16)))

/-- How `json.dumps` (default `ensure_ascii=True`) renders one character
inside a string literal: the two-character escapes, `\uXXXX` for other
control and non-ASCII characters (a surrogate pair above the BMP), the
character itself otherwise. -/
def jsonEscapeChar (c : Char) : List Char :=
  if c = '"' then ("\\\"").toList
  else if c = '\\' then ("\\\\").toList
  else if c = '\n' then ("\\n").toList
  else if c = '\t' then ("\\t").toList
  else if c = '\r' then ("\\r").toList
  else if c = '\x08' then ("\\b").toList
  else if c = '\x0c' then ("\\f").toList
  else if c.toNat < 32 then uescape c.toNat
  else if c.toNat < 127 then [c]
  else if c.toNat < 65536 then uescape c.toNat
  else
    uescape (55296 + (c.toNat - 65536) / 1024) ++
      uescape (56320 + (c.toNat - 65536) % 1024)

/-- A JSON string literal with its surrounding quotes. -/
def jsonEscapeString (s : String) : String :=
  "\"" ++ String.mk (s.toList.map jsonEscapeChar).flatten ++ "\""

mutual

/-- `json.dumps` with the default separators `(', ', ': ')`. -/
def Json.dumps : Json → String
  | .str s => jsonEscapeString s
  | .num n => toString n
  | .jbool b => if b then "true" else "false"
  | .null => "null"
  | .arr es => "[" ++ dumpsArr es ++ "]"
  | .obj fields => "\x7b" ++ dumpsObj fields ++ "\x7d"

def dumpsArr : List Json → String
  | [] => ""
  | [v] => v.dumps
  | v :: rest => v.dumps ++ ", " ++ dumpsArr rest

def dumpsObj : List (String × Json) → String
  | [] => ""
  | [(k, v)] => jsonEscapeString k ++ ": " ++ v.dumps
  | (k, v) :: rest => jsonEscapeString k ++ ": " ++ v.dumps ++ ", " ++ dumpsObj rest

end

/-- The characters `urllib.parse.quote` leaves unencoded with the default
`safe='/'`: ASCII alphanumerics, `_.-~`, and the slash. -/
def urlquoteSafeChar (c : Char) : Bool :=
  c.isAlphanum || c = '_' || c = '.' || c = '-' || c = '~' || c = '/'

/-- Uppercase hex digit, as `quote` emits in `%XX`. -/
def hexDigitUpper (n : Nat) : Char :=
  Char.ofNat (if n < 10 then 48 + n else 55 + n)

/-- `urllib.parse.quote(s, safe='/')` on ASCII input: `%XX`-encode every
unsafe character, never producing `+` for spaces (space-safe percent
encoding, not form encoding). -/
def urlquote (s : String) : String :=
  String.mk ((s.toList.map (fun c =>
    if urlquoteSafeChar c then [c]
    else ['%', hexDigitUpper (c.toNat / 16 % 16), hexDigitUpper (c.toNat % 16)])).flatten)

/-- Python `s[1:-1]`. -/
def stripFirstLast (s : String) : String :=
  String.mk ((s.toList.drop 1).dropLast)

/-- `query_builder.encode_logstash_query(query, timeframe=864000)`. -/
def encode_logstash_query (query : Json) (timeframe : Nat := 864000) : String :=
  "query=" ++ urlquote (stripFirstLast (Json.dumps query)) ++ "&from=" ++
    (toString timeframe ++ "s")

/-- Numeric value of one hex digit, either case. -/
def hexVal (c : Char) : Option Nat :=
  if c.isDigit then some (c.toNat - 48)
  else if 97 ≤ c.toNat ∧ c.toNat ≤ 102 then some (c.toNat - 87)
  else if 65 ≤ c.toNat ∧ c.toNat ≤ 70 then some (c.toNat - 55)
  else none

/-- Percent-decoding (`urllib.parse.unquote` restricted to `%XX` escapes;
a malformed escape yields `none`). -/
def percentDecodeList : List Char → Option (List Char)
  | [] => some []
  | '%' :: rest =>
    match rest with
    | h :: l :: rest2 =>
      match hexVal h, hexVal l with
      | some hv, some lv =>
        (percentDecodeList rest2).map (fun r => Char.ofNat (hv * 16 + lv) :: r)
      | _, _ => none
    | _ => none
  | c :: rest => (percentDecodeList rest).map (fun r => c :: r)

def percentDecode (s : String) : Option String :=
  (percentDecodeList s.toList).map String.mk

/-- JSON whitespace skipping, as `json.loads` does between tokens. -/
def skipWs : List Char → List Char
  | [] => []
  | c :: cs => if c = ' ' || c = '\t' || c = '\n' || c = '\r' then skipWs cs else c :: cs

/-- Parse the remainder of a JSON string literal (after the opening quote),
returning its characters and the rest of the input. -/
def parseJsonStringAux : List Char → Option (List Char × List Char)
  | [] => none
  | c :: cs =>
    if c = '"' then some ([], cs)
    else if c = '\\' then
      match cs with
      | [] => none
      | e :: cs2 =>
        if e = 'u' then
          match cs2 with
          | a :: b :: c3 :: d :: cs3 =>
            match hexVal a, hexVal b, hexVal c3, hexVal d with
            | some va, some vb, some vc, some vd =>
              (parseJsonStringAux cs3).map (fun r =>
                (Char.ofNat (va * 4096 + vb * 256 + vc * 16 + vd) :: r.1, r.2))
            | _, _, _, _ => none
          | _ => none
        else
          match (if e = '"' then some '"'
            else if e = '\\' then some '\\'
            else if e = '/' then some '/'
            else if e = 'n' then some '\n'
            else if e = 't' then some '\t'
            else if e = 'r' then some '\r'
            else if e = 'b' then some '\x08'
            else if e = 'f' then some '\x0c'
            else none) with
          | some ec => (parseJsonStringAux cs2).map (fun r => (ec :: r.1, r.2))
          | none => none
    else (parseJsonStringAux cs).map (fun r => (c :: r.1, r.2))

def takeDigits : List Char → (List Char × List Char)
  | [] => ([], [])
  | c :: cs =>
    if c.isDigit then
      ((c :: (takeDigits cs).1), (takeDigits cs).2)
    else ([], c :: cs)

def digitsToNat (ds : List Char) : Nat :=
  ds.foldl (fun acc c => 10 * acc + (c.toNat - 48)) 0

/-- Parse a JSON integer (fractional and exponent forms are rejected: none
occur in this system's data). -/
def parseJsonNumber (s : List Char) : Option (Json × List Char) :=
  match s with
  | '-' :: rest =>
    match takeDigits rest with
    | (ds, r) =>
      if ds.isEmpty then none
      else
        match r with
        | '.' :: _ => none
        | 'e' :: _ => none
        | 'E' :: _ => none
        | _ => some (Json.num (-(digitsToNat ds : Int)), r)
  | _ =>
    match takeDigits s with
    | (ds, r) =>
      if ds.isEmpty then none
      else
        match r with
        | '.' :: _ => none
        | 'e' :: _ => none
        | 'E' :: _ => none
        | _ => some (Json.num (digitsToNat ds), r)

mutual

/-- Recursive-descent JSON value parser; the fuel only bounds nesting and is
chosen larger than the input length at the entry point. -/
def parseJsonValue : Nat → List Char → Option (Json × List Char)
  | 0, _ => none
  | fuel + 1, s =>
    match skipWs s with
    | [] => none
    | c :: cs =>
      if c = '"' then
        (parseJsonStringAux cs).map (fun r => (Json.str (String.mk r.1), r.2))
      else if c = '\x7b' then
        match skipWs cs with
        | '\x7d' :: rest => some (Json.obj [], rest)
        | s2 => parseJsonObjRest fuel s2 []
      else if c = '[' then
        match skipWs cs with
        | ']' :: rest => some (Json.arr [], rest)
        | s2 => parseJsonArrRest fuel s2 []
      else if c = 't' then
        (dropLit ("rue").toList cs).map (fun rest => (Json.jbool true, rest))
      else if c = 'f' then
        (dropLit ("alse").toList cs).map (fun rest => (Json.jbool false, rest))
      else if c = 'n' then
        (dropLit ("ull").toList cs).map (fun rest => (Json.null, rest))
      else parseJsonNumber (c :: cs)

def parseJsonObjRest : Nat → List Char → List (String × Json) →
    Option (Json × List Char)
  | 0, _, _ => none
  | fuel + 1, s, acc =>
    match skipWs s with
    | '"' :: cs =>
      match parseJsonStringAux cs with
      | none => none
      | some (k, rest) =>
        match skipWs rest with
        | ':' :: rest2 =>
          match parseJsonValue fuel rest2 with
          | none => none
          | some (v, rest3) =>
            match skipWs rest3 with
            | ',' :: rest4 => parseJsonObjRest fuel rest4 (acc ++ [(String.mk k, v)])
            | '\x7d' :: rest4 => some (Json.obj (acc ++ [(String.mk k, v)]), rest4)
            | _ => none
        | _ => none
    | _ => none

def parseJsonArrRest : Nat → List Char → List Json → Option (Json × List Char)
  | 0, _, _ => none
  | fuel + 1, s, acc =>
    match parseJsonValue fuel s with
    | none => none
    | some (v, rest) =>
      match skipWs rest with
      | ',' :: rest2 => parseJsonArrRest fuel rest2 (acc ++ [v])
      | ']' :: rest2 => some (Json.arr (acc ++ [v]), rest2)
      | _ => none

end

/-- `json.loads`: parse one value and require only whitespace to remain
(Python raises "Extra data" otherwise, modelled as `none`). -/
def json_loads (s : String) : Option Json :=
  match parseJsonValue (s.length + 1) s.toList with
  | none => none
  | some (v, rest) => if (skipWs rest).isEmpty then some v else none

/-- The characters up to the first `&`. -/
def takeUntilAmp : List Char → List Char
  | [] => []
  | '&' :: _ => []
  | c :: cs => c :: takeUntilAmp cs

/-- The value of the leading `query=` parameter of an encoded string: the
text between `query=` (6 characters) and the first `&`. -/
def queryParamValue (s : String) : String :=
  String.mk (takeUntilAmp (s.toList.drop 6))

/-! ## String containment helpers -/

/-- `needle` occurs as a contiguous substring of `hay`. -/
def StrContains (hay needle : String) : Prop :=
  ∃ x y : List Char, hay.toList = x ++ needle.toList ++ y

/-! ## Concrete instances used by the theorems and witnesses -/

/-- Concrete event for the probe witness. -/
def c3Event : FailEvent :=
  { change := 12345
    rev := 2
    project := "openstack/nova"
    url := "https://review.example.org/12345"
    comment := "Build failed"
    created_on := 0
    failed_jobs :=
      [FailJob.init ("tempest-full")
        ("http://logs.example.org/23/12345/2/check/tempest-full/1abcdef")] }

/-- Concrete suppressed record for the C4 witness. -/
def c4Record : QueryRecord :=
  { bug := "1323456"
    query := "message:\"fake suppressed error\""
    test_ids := []
    suppress_notification := true }

/-- Concrete record with test ids for the C5 witness. -/
def c5Record : QueryRecord :=
  { bug := "1353131"
    query := "message:\"some generic error\""
    test_ids := ["t1", "t2"]
    suppress_notification := false }

/-- Concrete qualifying event for C6. -/
def c6Event : GerritEvent :=
  { type := "comment-added"
    author_username := "jenkins"
    comment := "Build failed.\n\n- tempest-full http://example/123 : FAILURE\n" }

/-- The claim's concrete query object `{"query_string": {"query": "a AND b"}}`. -/
def c9Query : Json :=
  Json.obj [("query_string", Json.obj [("query", Json.str "a AND b")])]

/-- The percent-decoded `query=` value for `c9Query`: `json.dumps` output
with the outer braces stripped. -/
def c9Decoded : String :=
  "\"query_string\": \x7b\"query\": \"a AND b\"\x7d"

/-- Concrete no-bugs event for the C10 witness. -/
def c10EmptyEvent : FailEvent :=
  { change := 1
    rev := 1
    project := "openstack/nova"
    url := "https://review.example.org/1"
    comment := "Build failed"
    created_on := 0
    failed_jobs := [] }

/-- Concrete event whose one job has a duplicated bug id assigned, for the
C10 witness. -/
def c10DupEvent : FailEvent :=
  { c10EmptyEvent with
    failed_jobs :=
      [{ name := "gate-tempest-dsvm-full"
         url := "http://logs.example.org/check/gate-tempest-dsvm-full/9abcdef"
         build_short_uuid := "9abcdef"
         ownBugs := some ["1353131", "1353131"] }] }

/-! ## Helper lemmas -/

lemma toList_append (a b : String) : (a ++ b).toList = a.toList ++ b.toList := by
  cases a
  cases b
  rfl

lemma strContains_self (s : String) : StrContains s s :=
  ⟨[], [], by simp⟩

lemma strContains_appendL {s n : String} (t : String) (h : StrContains s n) :
    StrContains (s ++ t) n := by
  obtain ⟨x, y, hxy⟩ := h
  have hd : s.data = x ++ n.data ++ y := hxy
  exact ⟨x, y ++ t.toList, by simp [toList_append, String.toList, hd]⟩

lemma strContains_appendR {t n : String} (s : String) (h : StrContains t n) :
    StrContains (s ++ t) n := by
  obtain ⟨x, y, hxy⟩ := h
  have hd : t.data = x ++ n.data ++ y := hxy
  exact ⟨s.toList ++ x, y, by simp [toList_append, String.toList, hd]⟩

/-- The chosen gas is always sufficient: the loop sentinel is unreachable,
i.e. the source's `while True` loop terminates for every oracle. -/
lemma probeLoop_no_outOfGas (search : ESQuery → Nat → Nat)
    (searchFacets : ESQuery → Nat → List String) (e : FailEvent) :
    ∀ gas now, e.created_on + probeTimeout + 1 - now ≤ gas →
      probeLoop search searchFacets e gas now ≠ ProbeResult.outOfGas := by
  intro gas
  induction gas with
  | zero =>
    intro now h
    rw [probeLoop]
    have hnow : e.created_on + probeTimeout < now := by omega
    by_cases hp : probePass search searchFacets e now = true
    · simp [hp]
    · simp [hp, hnow]
  | succ g ih =>
    intro now h
    rw [probeLoop]
    by_cases hp : probePass search searchFacets e now = true
    · simp [hp]
    · by_cases hnow : e.created_on + probeTimeout < now
      · simp [hp, hnow]
      · have h' : e.created_on + probeTimeout + 1 - (now + probeSleep) ≤ g := by
          simp only [probeSleep] at *
          omega
        simpa [hp, hnow] using ih (now + probeSleep) h'

/-- When every pass fails, the loop ends in `ResultTimedOut` at the first
40-second poll boundary past the 1200-second deadline. -/
lemma probeLoop_always_fail (search : ESQuery → Nat → Nat)
    (searchFacets : ESQuery → Nat → List String) (e : FailEvent)
    (hfail : ∀ t, probePass search searchFacets e t = false) :
    ∀ gas now, e.created_on + probeTimeout + 1 - now ≤ gas →
      ∃ k, probeLoop search searchFacets e gas now =
          ProbeResult.timedOut (now + probeSleep * k) ∧
        e.created_on + probeTimeout < now + probeSleep * k ∧
        ∀ j < k, now + probeSleep * j ≤ e.created_on + probeTimeout := by
  intro gas
  induction gas with
  | zero =>
    intro now h
    have hnow : e.created_on + probeTimeout < now := by omega
    refine ⟨0, ?_, by simpa using hnow, by intro j hj; omega⟩
    rw [probeLoop]
    simp [hfail now, hnow]
  | succ g ih =>
    intro now h
    by_cases hnow : e.created_on + probeTimeout < now
    · refine ⟨0, ?_, by simpa using hnow, by intro j hj; omega⟩
      rw [probeLoop]
      simp [hfail now, hnow]
    · have h' : e.created_on + probeTimeout + 1 - (now + probeSleep) ≤ g := by
        simp only [probeSleep] at *
        omega
      obtain ⟨k, hk1, hk2, hk3⟩ := ih (now + probeSleep) h'
      have harith : now + probeSleep * (k + 1) = now + probeSleep + probeSleep * k := by
        simp only [probeSleep]
        omega
      refine ⟨k + 1, ?_, ?_, ?_⟩
      · rw [probeLoop]
        simpa [hfail now, hnow, harith] using hk1
      · omega
      · intro j hj
        cases j with
        | zero => simpa using not_lt.mp hnow
        | succ j' =>
          have := hk3 j' (by omega)
          simp only [probeSleep] at *
          omega

lemma check_failed_test_ids_iff (db : String → List String) (u : String)
    (ids : List String) :
    check_failed_test_ids_for_job db u ids = true ↔ ∃ t ∈ ids, t ∈ db u := by
  simp [check_failed_test_ids_for_job, List.any_eq_true, List.elem_iff]

/-- Every classified bug id is the bug id of some catalog record. -/
lemma mem_classify_bugs (es : ESQuery → Nat) (db : String → List String)
    (c p u : String) (qs : List QueryRecord) (b : String)
    (hb : b ∈ classify es db c p u qs) : b ∈ qs.map QueryRecord.bug := by
  induction qs with
  | nil => simp [classify] at hb
  | cons y rest ih =>
    rw [classify] at hb
    simp only [List.map_cons, List.mem_cons]
    split_ifs at hb with h1 h2 h3 h4
    · exact Or.inr (ih hb)
    · rcases List.mem_cons.mp hb with rfl | hb
      · exact Or.inl rfl
      · exact Or.inr (ih hb)
    · exact Or.inr (ih hb)
    · rcases List.mem_cons.mp hb with rfl | hb
      · exact Or.inl rfl
      · exact Or.inr (ih hb)
    · exact Or.inr (ih hb)

/-- For a catalog with distinct bug ids, a record's bug is classified iff the
record is not suppressed, its query hit, and its test-id gate (vacuous when
no test ids are declared) passes. -/
lemma mem_classify (es : ESQuery → Nat) (db : String → List String)
    (c p u : String) (qs : List QueryRecord)
    (hnodup : (qs.map QueryRecord.bug).Nodup)
    (x : QueryRecord) (hx : x ∈ qs) :
    x.bug ∈ classify es db c p u qs ↔
      (x.suppress_notification = false ∧ 0 < es (single_patch x.query c p u) ∧
        (x.test_ids = [] ∨ check_failed_test_ids_for_job db u x.test_ids = true)) := by
  induction qs with
  | nil => cases hx
  | cons y rest ih =>
    rw [List.map_cons, List.nodup_cons] at hnodup
    obtain ⟨hyb, hrest⟩ := hnodup
    rcases List.mem_cons.mp hx with rfl | hx
    · have hxtail : x.bug ∉ classify es db c p u rest := fun h =>
        hyb (mem_classify_bugs es db c p u rest x.bug h)
      rw [classify]
      split_ifs with h1 h2 h3 h4
      · exact iff_of_false hxtail (by simp [h1])
      · exact iff_of_true (List.mem_cons_self _ _)
          ⟨by simpa using h1, h2, Or.inr h4⟩
      · refine iff_of_false hxtail ?_
        rintro ⟨-, -, h | h⟩
        · exact h3 h
        · exact h4 h
      · exact iff_of_true (List.mem_cons_self _ _)
          ⟨by simpa using h1, h2, Or.inl (not_not.mp h3)⟩
      · refine iff_of_false hxtail ?_
        rintro ⟨-, hh, -⟩
        exact h2 hh
    · have hne : y.bug ≠ x.bug := by
        intro hEq
        exact hyb (hEq ▸ List.mem_map_of_mem QueryRecord.bug hx)
      have hmem := ih hrest hx
      have hcons : x.bug ∈ y.bug :: classify es db c p u rest ↔
          (x.suppress_notification = false ∧ 0 < es (single_patch x.query c p u) ∧
            (x.test_ids = [] ∨ check_failed_test_ids_for_job db u x.test_ids = true)) := by
        rw [List.mem_cons, hmem]
        constructor
        · rintro (h | h)
          · exact (hne h.symm).elim
          · exact h
        · exact fun h => Or.inr h
      rw [classify]
      split_ifs with h1 h2 h3 h4
      · exact hmem
      · exact hcons
      · exact hmem
      · exact hcons
      · exact hmem

/-- Membership in the accumulated union of the failed jobs' bug lists. -/
lemma mem_foldl_append_bugs (st : FailJobClassState) (jobs : List FailJob)
    (acc : List String) (b : String) :
    b ∈ jobs.foldl (fun acc j => acc ++ FailJob.getBugs st j) acc ↔
      b ∈ acc ∨ ∃ j ∈ jobs, b ∈ FailJob.getBugs st j := by
  induction jobs generalizing acc with
  | nil => simp
  | cons j rest ih =>
    rw [List.foldl_cons, ih]
    simp [List.mem_append, or_assoc]

/-! ## Theorems -/

/-- C1 (counterexample): for job `tempest-dsvm` with only `console.html`
ingested, the code raises `FilesNotReady` (required files are missing even
though a finish marker is present), while the claim's conjunctive condition
predicts success.  This refutes the claim as stated. -/
theorem filesNotReady_disj_counterexample :
    filesNotReadyRaised ["console.html"] ("tempest-dsvm") = true ∧
      specConjunctiveFailure ["console.html"] ("tempest-dsvm") = false := by
  decide

/-- C1 (amended): the required-files check raises `FilesNotReady` iff some
required filename is absent from the facet terms OR neither `console.html`
nor `job-output.txt` is among them; it succeeds iff all required files are
present AND one of the two finish markers is present. -/
theorem filesNotReadyRaised_iff (files : List String) (name : String) :
    filesNotReadyRaised files name = true ↔
      ((∃ f ∈ required_files name, f ∉ files) ∨
        (("console.html" : String) ∉ files ∧ ("job-output.txt" : String) ∉ files)) := by
  unfold filesNotReadyRaised
  simp only [Bool.or_eq_true, Bool.and_eq_true, bne_iff_ne, ne_eq, List.length_eq_zero,
    List.filter_eq_nil_iff, Bool.not_eq_true', Bool.not_eq_true, not_forall]
  simp [List.elem_iff]

/-- C2 (counterexample): `required_files("neutron-tempest-dsvm")` is the empty
list — the anchored `re.match` pattern `(tempest|grenade)-dsvm` does not match
a name starting with `neutron`, so `logs/screen-q-svc.txt` is NOT included,
refuting the claim. -/
theorem required_files_neutron_counterexample :
    ("logs/screen-q-svc.txt" : String) ∉ required_files ("neutron-tempest-dsvm") := by
  decide

/-- C2 (amended): because the job-name patterns are anchored at the start of
the name, `required_files` returns the empty list for both
`neutron-tempest-dsvm` and `nova-tempest-dsvm`; `grenade-dsvm` gets the base
devstack set plus `logs/grenade.sh.txt`; `unrelated-job` gets the empty
list. -/
theorem required_files_eval :
    required_files ("neutron-tempest-dsvm") = [] ∧
      required_files ("nova-tempest-dsvm") = [] ∧
      ("logs/grenade.sh.txt" : String) ∈ required_files ("grenade-dsvm") ∧
      required_files ("unrelated-job") = [] := by
  decide

/-- C8: `result_ready` sorts by timestamp descending, carries no facet, and
its query string is exactly the disjunction of the `job-output.txt` marker
branch and the legacy `console.html` marker branch, conjoined with the
FAILURE status and the four exact-match build constraints; both disjunct
branches occur in every output. -/
theorem result_ready_structure (change patchset name short_uuid : String) :
    (result_ready change patchset name short_uuid).sortField = "@timestamp" ∧
    (result_ready change patchset name short_uuid).sortOrder = "desc" ∧
    (result_ready change patchset name short_uuid).facet = none ∧
    (result_ready change patchset name short_uuid).queryString =
      "(" ++ jobOutputMarker ++ " OR " ++ consoleMarkers ++ ")"
        ++ " AND build_status:\"FAILURE\""
        ++ " AND build_change:\"" ++ change ++ "\""
        ++ " AND build_patchset:\"" ++ patchset ++ "\""
        ++ " AND build_name:\"" ++ name ++ "\""
        ++ " AND build_short_uuid:\"" ++ short_uuid ++ "\"" ∧
    StrContains (result_ready change patchset name short_uuid).queryString jobOutputMarker ∧
    StrContains (result_ready change patchset name short_uuid).queryString consoleMarkers := by
  refine ⟨rfl, rfl, rfl, rfl, ?_, ?_⟩
  · refine ⟨("(").toList, (" OR " ++ consoleMarkers ++ ")" ++ " AND build_status:\"FAILURE\""
        ++ " AND build_change:\"" ++ change ++ "\"" ++ " AND build_patchset:\"" ++ patchset
        ++ "\"" ++ " AND build_name:\"" ++ name ++ "\"" ++ " AND build_short_uuid:\""
        ++ short_uuid ++ "\"").toList, ?_⟩
    simp [result_ready, generic, toList_append]
  · refine ⟨("(" ++ jobOutputMarker ++ " OR ").toList, (")" ++ " AND build_status:\"FAILURE\""
        ++ " AND build_change:\"" ++ change ++ "\"" ++ " AND build_patchset:\"" ++ patchset
        ++ "\"" ++ " AND build_name:\"" ++ name ++ "\"" ++ " AND build_short_uuid:\""
        ++ short_uuid ++ "\"").toList, ?_⟩
    simp [result_ready, generic, toList_append]

/-- C3: with a search engine that always returns zero hits and a non-empty
failed-jobs list, the readiness probe always terminates in `ResultTimedOut`
(never success): the raise happens at a 40-second poll boundary, strictly
after `created_on + 1200` while every earlier poll was at or before the
deadline; and entered at `now = created_on + 1200` it raises exactly at the
next 40-second boundary. -/
theorem probe_zero_hits_times_out (search : ESQuery → Nat → Nat)
    (searchFacets : ESQuery → Nat → List String) (e : FailEvent) (now : Nat)
    (hjobs : e.failed_jobs ≠ [])
    (hzero : ∀ q t, search q t = 0) :
    (∃ k, does_es_have_data search searchFacets e now =
        ProbeResult.timedOut (now + probeSleep * k) ∧
      e.created_on + probeTimeout < now + probeSleep * k ∧
      ∀ j < k, now + probeSleep * j ≤ e.created_on + probeTimeout) ∧
    (now = e.created_on + probeTimeout →
      does_es_have_data search searchFacets e now =
        ProbeResult.timedOut (now + probeSleep)) := by
  have hfail : ∀ t, probePass search searchFacets e t = false := by
    intro t
    rcases he : e.failed_jobs with - | ⟨j, rest⟩
    · exact absurd he hjobs
    · simp [probePass, he, hzero]
  have hmain := probeLoop_always_fail search searchFacets e hfail
    (e.created_on + probeTimeout + 1 - now) now (le_refl _)
  refine ⟨hmain, ?_⟩
  intro hn
  subst hn
  obtain ⟨k, hk1, hk2, hk3⟩ := hmain
  have hk : k = 1 := by
    rcases k with - | - | k'
    · simp only [probeSleep, probeTimeout] at hk2
      omega
    · rfl
    · have h1 := hk3 1 (by omega)
      simp only [probeSleep, probeTimeout] at h1
      omega
  rw [hk, mul_one] at hk1
  exact hk1

/-- C3 (witness): the probe entered exactly at the deadline with an
all-zero-hits engine raises at the next 40-second boundary. -/
theorem probe_zero_hits_times_out_witness :
    does_es_have_data (fun _ _ => 0) (fun _ _ => []) c3Event 1200 =
      ProbeResult.timedOut (1200 + probeSleep) :=
  (probe_zero_hits_times_out (fun _ _ => 0) (fun _ _ => []) c3Event 1200
    (by decide) (fun _ _ => rfl)).2 rfl

/-- C4: for a catalog with distinct bug ids, a record marked
`suppress-notification` never contributes its bug id to `classify`'s result,
regardless of the search engine's hit counts. -/
theorem classify_skips_suppressed (es : ESQuery → Nat) (db : String → List String)
    (c p u : String) (qs : List QueryRecord)
    (hnodup : (qs.map QueryRecord.bug).Nodup)
    (x : QueryRecord) (hx : x ∈ qs) (hs : x.suppress_notification = true) :
    x.bug ∉ classify es db c p u qs := by
  rw [mem_classify es db c p u qs hnodup x hx]
  simp [hs]

/-- C4 (witness): a suppressed record with 5 hits is not classified. -/
theorem classify_skips_suppressed_witness :
    ("1323456" : String) ∉
      classify (fun _ => 5) (fun _ => []) ("456789") ("3") ("abc1234") [c4Record] :=
  classify_skips_suppressed (fun _ => 5) (fun _ => []) ("456789") ("3") ("abc1234")
    [c4Record] (by decide) c4Record (by decide) rfl

/-- C5: for a catalog with distinct bug ids, a non-suppressed record that
declares test ids and whose single-patch query hit is classified iff at
least one declared test id is among the failing test ids the store holds for
the build; an empty intersection means no match despite the hit. -/
theorem classify_test_id_gating (es : ESQuery → Nat) (db : String → List String)
    (c p u : String) (qs : List QueryRecord)
    (hnodup : (qs.map QueryRecord.bug).Nodup)
    (x : QueryRecord) (hx : x ∈ qs)
    (hsup : x.suppress_notification = false)
    (hids : x.test_ids ≠ [])
    (hhits : 0 < es (single_patch x.query c p u)) :
    x.bug ∈ classify es db c p u qs ↔ ∃ t ∈ x.test_ids, t ∈ db u := by
  rw [mem_classify es db c p u qs hnodup x hx,
    ← check_failed_test_ids_iff db u x.test_ids]
  simp [hsup, hhits, hids]

/-- C5 (witness): with 5 hits, a store returning `{t3}` excludes the bug and
a store returning `{t2}` includes it. -/
theorem classify_test_id_gating_witness :
    (("1353131" : String) ∉
      classify (fun _ => 5) (fun _ => ["t3"]) ("456789") ("3") ("abc1234") [c5Record]) ∧
    (("1353131" : String) ∈
      classify (fun _ => 5) (fun _ => ["t2"]) ("456789") ("3") ("abc1234") [c5Record]) := by
  constructor
  · intro hmem
    have hex := (classify_test_id_gating (fun _ => 5) (fun _ => ["t3"]) ("456789") ("3")
      ("abc1234") [c5Record] (by decide) c5Record (by decide) rfl (by decide)
      (by decide)).mp hmem
    revert hex
    decide
  · exact (classify_test_id_gating (fun _ => 5) (fun _ => ["t2"]) ("456789") ("3")
      ("abc1234") [c5Record] (by decide) c5Record (by decide) rfl (by decide)
      (by decide)).mpr (by decide)

/-- C6: `parse_jenkins_failure` yields a job list only for comment-added
events by a trusted CI identity whose comment contains the failure banner;
a line containing the non-voting annotation never yields a FailJob; and on
the concrete qualifying event the line
`- tempest-full http://example/123 : FAILURE` yields exactly one FailJob
named `tempest-full` with `build_short_uuid = "123"`. -/
theorem parse_jenkins_failure_spec :
    (∀ (e : GerritEvent) (u : String) (jobs : List FailJob),
        parse_jenkins_failure e u = some jobs →
        e.type = "comment-added" ∧
          (e.author_username = u ∨ e.author_username = "zuul") ∧
          strContainsB e.comment ("Build failed") = true) ∧
    (∀ line : String, strContainsB line (" (non-voting)") = true →
        parseFailureLine line = none) ∧
    (parse_jenkins_failure c6Event ("jenkins") =
      some [{ name := "tempest-full", url := "http://example/123",
              build_short_uuid := "123", ownBugs := none }]) := by
  refine ⟨?_, ?_, by decide⟩
  · intro e u jobs h
    unfold parse_jenkins_failure at h
    split_ifs at h with h1 h2 h3
    exact ⟨not_not.mp h1, h2, h3⟩
  · intro line h
    unfold parseFailureLine
    rw [if_pos h]

/-- C6 (witness): the general conjuncts applied at concrete inputs. -/
theorem parse_jenkins_failure_spec_witness :
    (c6Event.type = "comment-added" ∧
      (c6Event.author_username = "jenkins" ∨ c6Event.author_username = "zuul") ∧
      strContainsB c6Event.comment ("Build failed") = true) ∧
    parseFailureLine ("- tempest-neutron http://example/456 (non-voting) : FAILURE") =
      none :=
  ⟨parse_jenkins_failure_spec.1 c6Event ("jenkins")
      [{ name := "tempest-full", url := "http://example/123",
         build_short_uuid := "123", ownBugs := none }] (by decide),
    parse_jenkins_failure_spec.2.1
      ("- tempest-neutron http://example/456 (non-voting) : FAILURE") (by decide)⟩

/-- C7 (code_bug evidence): `bugs` is a single class-level list shared by all
FailJob instances.  A fresh instance's `bugs` is empty right after
construction, but after a bug id is appended through one instance, a second,
freshly constructed instance already observes the non-empty shared list —
instances are not independent. -/
theorem failJob_bugs_shared_across_instances :
    FailJob.getBugs ⟨[]⟩
        (FailJob.init ("job-a") ("http://logs.example.org/check/job-a/1abcdef")) = [] ∧
    FailJob.getBugs
        (FailJob.appendBug ⟨[]⟩
          (FailJob.init ("job-a") ("http://logs.example.org/check/job-a/1abcdef"))
          ("1353131")).1
        (FailJob.init ("job-b") ("http://logs.example.org/check/job-b/2abcdef")) =
      ["1353131"] :=
  ⟨rfl, rfl⟩

/-- C9 (counterexample): the percent-decoded `query=` value is the dumped
object with its outer braces (not quotes) stripped, so JSON-parsing it with
added outer QUOTES fails (Python json raises "Extra data") and cannot
reproduce the original object: the claim as stated is false. -/
theorem encode_logstash_quote_roundtrip_fails :
    percentDecode (queryParamValue (encode_logstash_query c9Query 3600)) =
        some c9Decoded ∧
      json_loads ("\"" ++ c9Decoded ++ "\"") = none :=
  ⟨rfl, rfl⟩

/-- C9 (amended): `encode_logstash_query({"query_string":{"query":"a AND b"}},
3600)` round-trips through the outer BRACES the implementation stripped:
percent-decoding the `query=` value and JSON-parsing it with re-added outer
braces reproduces the original object, and the result ends with `&from=3600s`
verbatim. -/
theorem encode_logstash_query_roundtrip :
    encode_logstash_query c9Query 3600 =
        "query=%22query_string%22%3A%20%7B%22query%22%3A%20%22a%20AND%20b%22%7D&from=3600s" ∧
      percentDecode (queryParamValue (encode_logstash_query c9Query 3600)) =
        some c9Decoded ∧
      json_loads ("\x7b" ++ c9Decoded ++ "\x7d") = some c9Query ∧
      (("&from=3600s").toList.isSuffixOf
        (encode_logstash_query c9Query 3600).toList) = true :=
  ⟨rfl, rfl, rfl, rfl⟩

/-- C10: `get_all_bugs` returns `None` exactly when no failed job carries any
bug id; otherwise it returns a duplicate-free list whose members are exactly
the union of the jobs' bug lists; and `bug_urls()` with the default argument
returns `None` for an event with no attached bugs. -/
theorem get_all_bugs_spec (st : FailJobClassState) (e : FailEvent) :
    (FailEvent.get_all_bugs st e = none ↔
      ∀ b j, j ∈ e.failed_jobs → b ∉ FailJob.getBugs st j) ∧
    (∀ l, FailEvent.get_all_bugs st e = some l →
      l.Nodup ∧ ∀ b, b ∈ l ↔ ∃ j ∈ e.failed_jobs, b ∈ FailJob.getBugs st j) ∧
    (FailEvent.get_all_bugs st e = none → FailEvent.bug_urls st e none = none) := by
  have hmem : ∀ b, b ∈ (e.failed_jobs.foldl
      (fun acc j => acc ++ FailJob.getBugs st j) []).dedup ↔
      ∃ j ∈ e.failed_jobs, b ∈ FailJob.getBugs st j := by
    intro b
    rw [List.mem_dedup, mem_foldl_append_bugs]
    simp
  have hga : FailEvent.get_all_bugs st e =
      if ((e.failed_jobs.foldl (fun acc j => acc ++ FailJob.getBugs st j) []).dedup).length = 0
      then none
      else some ((e.failed_jobs.foldl (fun acc j => acc ++ FailJob.getBugs st j) []).dedup) :=
    rfl
  refine ⟨?_, ?_, ?_⟩
  · rw [hga]
    constructor
    · intro h b j hj hb
      by_cases hl : ((e.failed_jobs.foldl
          (fun acc j => acc ++ FailJob.getBugs st j) []).dedup).length = 0
      · have hbu := (hmem b).mpr ⟨j, hj, hb⟩
        rw [List.length_eq_zero] at hl
        rw [hl] at hbu
        cases hbu
      · simp [hl] at h
    · intro hall
      have hl : ((e.failed_jobs.foldl
          (fun acc j => acc ++ FailJob.getBugs st j) []).dedup).length = 0 := by
        rw [List.length_eq_zero, List.eq_nil_iff_forall_not_mem]
        intro b hb
        obtain ⟨j, hj, hbj⟩ := (hmem b).mp hb
        exact hall b j hj hbj
      simp [hl]
  · intro l hl
    rw [hga] at hl
    by_cases h0 : ((e.failed_jobs.foldl
        (fun acc j => acc ++ FailJob.getBugs st j) []).dedup).length = 0
    · simp [h0] at hl
    · simp only [h0, if_false, Option.some_inj] at hl
      subst hl
      exact ⟨List.nodup_dedup _, hmem⟩
  · intro hn
    simp [FailEvent.bug_urls, hn]

/-- C10 (witness): the empty event yields `None` from both `get_all_bugs`
and default-argument `bug_urls`; the duplicated-bug event yields a
duplicate-free list with the right members. -/
theorem get_all_bugs_spec_witness :
    (FailEvent.get_all_bugs ⟨[]⟩ c10EmptyEvent = none ∧
      FailEvent.bug_urls ⟨[]⟩ c10EmptyEvent none = none) ∧
    (["1353131"] : List String).Nodup ∧
      (∀ b, b ∈ (["1353131"] : List String) ↔
        ∃ j ∈ c10DupEvent.failed_jobs, b ∈ FailJob.getBugs ⟨[]⟩ j) := by
  refine ⟨⟨?_, ?_⟩, ?_⟩
  · exact (get_all_bugs_spec ⟨[]⟩ c10EmptyEvent).1.mpr (by simp [c10EmptyEvent])
  · exact (get_all_bugs_spec ⟨[]⟩ c10EmptyEvent).2.2
      ((get_all_bugs_spec ⟨[]⟩ c10EmptyEvent).1.mpr (by simp [c10EmptyEvent]))
  · exact (get_all_bugs_spec ⟨[]⟩ c10DupEvent).2.1 ["1353131"] rfl

end ER
